import Mathlib

/-!
Verification development for the ctzzy SCT verifier.

The repository sources under scrutiny are `ctzzy/tls/handshake.py` and
`ctzzy/scripts/verify_scts.py`.  Pure byte-level helpers are embedded as
executable Lean functions; the stateful handshake is embedded as a function
from an oracle describing the external TLS world to an outcome record.
Modules of the repository that are not part of the provided sources
(`ctzzy/tls/sctlist.py`, `ctzzy/sct/verification.py`,
`ctzzy/sct/signature_input.py`) are modelled from the specification; each such
definition says so in its doc comment.
-/

namespace Ctzzy

/-- Byte strings are lists of naturals; a well-formed byte string has all
entries below 256. -/
abbrev Bytes := List Nat

/-- Python truthiness of an optional bytes value: `None` and empty bytes are
falsy. -/
def pyTruthy (o : Option Bytes) : Bool :=
  match o with
  | none => false
  | some bs => !bs.isEmpty

/-- Big-endian 16-bit encoding, as produced by `struct.pack` with format `!H`. -/
def u16be (n : Nat) : Bytes := [n / 256 % 256, n % 256]

/-- Big-endian 64-bit encoding. -/
def u64be (n : Nat) : Bytes :=
  [n / 2 ^ 56 % 256, n / 2 ^ 48 % 256, n / 2 ^ 40 % 256, n / 2 ^ 32 % 256,
   n / 2 ^ 24 % 256, n / 2 ^ 16 % 256, n / 2 ^ 8 % 256, n % 256]

/-- Big-endian 24-bit encoding. -/
def u24be (n : Nat) : Bytes := [n / 2 ^ 16 % 256, n / 2 ^ 8 % 256, n % 256]

/-- Test that every entry of a byte string is a byte value. -/
def isBytes (bs : Bytes) : Bool := bs.all (fun b => decide (b < 256))

/-- Whether pyasn1 counts a byte as printable text: ASCII 32..126. -/
def isPrintableByte (b : Nat) : Bool := decide (32 ≤ b ∧ b ≤ 126)

/-- Whether every content byte is printable; pyasn1 then renders the octet
string as its raw text instead of as hex. -/
def allPrintable (bs : Bytes) : Bool := bs.all isPrintableByte

/-- ASCII code of the lowercase hex digit of a value below 16, as produced by
`binascii.hexlify` and by the pyasn1 hex rendering. -/
def hexDigitCode (n : Nat) : Nat := if n < 10 then 48 + n else 87 + n

/-- Hex rendering of a byte string, as ASCII character codes. -/
def bytesToHexChars (bs : Bytes) : List Nat :=
  bs.flatMap (fun b => [hexDigitCode (b / 16), hexDigitCode (b % 16)])

/-- Value of one hex digit character as `binascii.unhexlify` accepts it:
0-9, a-f and A-F. -/
def hexCharVal (c : Nat) : Option Nat :=
  if 48 ≤ c ∧ c ≤ 57 then some (c - 48)
  else if 97 ≤ c ∧ c ≤ 102 then some (c - 87)
  else if 65 ≤ c ∧ c ≤ 70 then some (c - 55)
  else none

/-- Model of `binascii.unhexlify` over ASCII character codes: consecutive hex
digit pairs become bytes; an odd length or a non-hex character raises, which
is modelled as `none`. -/
def unhexlifyChars : List Nat → Option Bytes
  | [] => some []
  | [_] => none
  | h :: l :: rest =>
    match hexCharVal h, hexCharVal l, unhexlifyChars rest with
    | some hv, some lv, some bs => some ((hv * 16 + lv) :: bs)
    | _, _, _ => none

/-- Model of pyasn1 `OctetString.prettyPrint` as ASCII character codes: the
raw text itself when every content byte is printable (32..126), otherwise
the marker 0x (codes 48, 120) followed by the lowercase hex rendering. -/
def octetStringPrettyPrint (bs : Bytes) : List Nat :=
  if allPrintable bs then bs else 48 :: 120 :: bytesToHexChars bs

/-- Whether the two-character marker 0x occurs in the string. -/
def contains0x : List Nat → Bool
  | [] => false
  | [_] => false
  | c1 :: c2 :: rest => (c1 == 48 && c2 == 120) || contains0x (c2 :: rest)

/-- Last element of the Python split of a string on the marker 0x: the suffix
after the last occurrence of the marker, or the whole string when the marker
never occurs.  Lines 43 and 91 of handshake.py take exactly this element of
the split. -/
def splitLast0x : List Nat → List Nat
  | [] => []
  | [c] => [c]
  | c1 :: c2 :: rest =>
    if c1 == 48 && c2 == 120 then
      if contains0x rest then splitLast0x rest else rest
    else
      if contains0x (c2 :: rest) then splitLast0x (c2 :: rest) else c1 :: c2 :: rest

/-- Python split of a string at the first occurrence of a pattern, as in
`split(pat, 1)`: the parts before and after the occurrence, or `none` when
the pattern does not occur (the split has a single element). -/
def splitFirst (pat : List Nat) : List Nat → Option (List Nat × List Nat)
  | [] => if pat.isEmpty then some ([], []) else none
  | c :: rest =>
    if pat.isPrefixOf (c :: rest) then some ([], (c :: rest).drop pat.length)
    else
      match splitFirst pat rest with
      | some pr => some (c :: pr.1, pr.2)
      | none => none

/-- Read a DER definite length: short form below 0x80, long form 0x80+k
followed by k length bytes.  Returns the length and the remaining bytes. -/
def derReadLen : Bytes → Option (Nat × Bytes)
  | [] => none
  | b :: rest =>
    if b < 128 then some (b, rest)
    else if b - 128 = 0 then none
    else if b - 128 ≤ rest.length then
      some ((rest.take (b - 128)).foldl (fun a d => a * 256 + d) 0, rest.drop (b - 128))
    else none

/-- Model of decoding a DER OCTET STRING (pyasn1 `der_decoder` with an
`OctetString` spec): tag 0x04, definite length, then the contents.  The
decoder also returns any trailing substrate, which the source discards, so
only the contents are kept here. -/
def derDecodeOctetString (bs : Bytes) : Option Bytes :=
  match bs with
  | 4 :: rest =>
    match derReadLen rest with
    | some p => if p.1 ≤ p.2.length then some (p.2.take p.1) else none
    | none => none
  | _ => none

/-- Modelled from the spec: the body of the `SignedCertificateTimestampList`
parser of `ctzzy/tls/sctlist.py`, which is not under src/.  Spec section 4.1:
repeatedly read a `u16 entry_len` and consume exactly `entry_len` bytes as one
SCT record until the total is exhausted, failing when a length overruns.  Each
entry is kept as its raw `sct_der` bytes, exactly as the source keeps
`entry.sct_der`. -/
def parseSctEntriesGo : Nat → Nat → Bytes → Option (List Bytes)
  | _, 0, _ => some []
  | 0, _ + 1, _ => none
  | fuel + 1, total + 1, bs =>
    match bs with
    | hi :: lo :: rest =>
      let len := hi * 256 + lo
      if 2 + len ≤ total + 1 ∧ len ≤ rest.length then
        match parseSctEntriesGo fuel (total + 1 - (2 + len)) (rest.drop len) with
        | some tl => some (rest.take len :: tl)
        | none => none
      else none
    | _ => none

/-- Entry parsing with the fuel set to the total: every step consumes at
least two bytes of the total, so `total` steps always suffice and the
fuel-exhausted branch is unreachable. -/
def parseSctEntries (total : Nat) (bs : Bytes) : Option (List Bytes) :=
  parseSctEntriesGo total total bs

/-- Modelled from the spec: the `SignedCertificateTimestampList` entry point
of `ctzzy/tls/sctlist.py`, which is not under src/.  Spec sections 3 and 4.1:
read `u16 total_len`, then parse the entries from the next `total_len`
bytes. -/
def parseSctList (bs : Bytes) : Option (List Bytes) :=
  match bs with
  | hi :: lo :: rest =>
    let total := hi * 256 + lo
    if total ≤ rest.length then parseSctEntries total (rest.take total) else none
  | _ => none

/-- Modelled from the spec: the `TlsExtension18` envelope parser of
`ctzzy/tls/sctlist.py`, which is not under src/.  Spec section 4.1: read
`u16 ext_type` and require 18, read `u16 inner_len`, then parse an SctList
from the next `inner_len` bytes. -/
def parseTlsExtension18 (bs : Bytes) : Option (List Bytes) :=
  match bs with
  | t1 :: t2 :: l1 :: l2 :: rest =>
    if t1 * 256 + t2 = 18 then
      let inner := l1 * 256 + l2
      if inner ≤ rest.length then parseSctList (rest.take inner) else none
    else none
  | _ => none

/-- An X.509 extension as pyasn1 presents it after decoding the certificate:
the extension OID (as its arc list) and the contents of the `extnValue`
OCTET STRING (the bytes pyasn1 hands to the next decoder). -/
structure X509Extension where
  extnID : List Nat
  extnValue : Bytes
deriving DecidableEq, Repr

/-- The part of a decoded TBSCertificate that `scts_from_cert` consults: the
optional extension list. -/
structure TbsCertificate where
  extensions : Option (List X509Extension)
deriving DecidableEq, Repr

/-- A decoded certificate, as far as `scts_from_cert` looks at it. -/
structure Certificate where
  tbsCertificate : TbsCertificate
deriving DecidableEq, Repr

/-- OID 1.3.6.1.4.1.11129.2.4.2, the X.509 SCT-list extension. -/
def oidSctList : List Nat := [1, 3, 6, 1, 4, 1, 11129, 2, 4, 2]

/-- Model of `scts_from_cert` (handshake.py lines 20-51).  The pyasn1 DER
decode of the certificate is abstracted: the function takes the decoded
structure.  The source filters the extensions by the SCT-list OID, takes the
first match and decodes its `extnValue` once as an OCTET STRING; line 43
then recovers the inner bytes as `binascii.unhexlify` of the part of the
pyasn1 pretty print after its last 0x marker — the hex rendering when some
inner byte is non-printable, but the raw text itself when every inner byte
is printable — and parses the recovered bytes as an SctList.  With no
matching extension it returns the empty list; a `none` result models an
exception escaping the function. -/
def scts_from_cert (cert : Certificate) : Option (List Bytes) :=
  let exts :=
    match cert.tbsCertificate.extensions with
    | some es => es.filter (fun (e : X509Extension) => e.extnID == oidSctList)
    | none => []
  match exts with
  | [] => some []
  | ext :: _ =>
    match derDecodeOctetString ext.extnValue with
    | none => none
    | some osInner =>
      match unhexlifyChars (splitLast0x (octetStringPrettyPrint osInner)) with
      | none => none
      | some sctlistDer => parseSctList sctlistDer

/-- The behaviour the spec ascribes to `scts_embedded`: locate the X.509
extension whose OID is 1.3.6.1.4.1.11129.2.4.2, decode its `extnValue`
OCTET STRING once to obtain the TLS-encoded SctList bytes, parse them, and
return the empty list when no such extension is present. -/
def scts_embedded_spec (cert : Certificate) : Option (List Bytes) :=
  match (cert.tbsCertificate.extensions.getD []).find?
      (fun (e : X509Extension) => e.extnID == oidSctList) with
  | none => some []
  | some ext => (derDecodeOctetString ext.extnValue).bind parseSctList

/-- Errors of the embedded Python fragments. -/
inductive PyError
  | typeError
  | attributeError
  | valueError
  | parseError
deriving DecidableEq, Repr

/-- One line of the pyasn1 pretty print of the generically decoded
BasicOCSPResponse: a value line whose value is an OBJECT IDENTIFIER (printed
as dotted decimal), a value line whose value is an OCTET STRING (printed per
`octetStringPrettyPrint`, so as raw text when fully printable), or any other
line carried verbatim as its character codes. -/
inductive PrintItem
  | oid (arcs : List Nat)
  | octets (bs : Bytes)
  | other (txt : List Nat)
deriving DecidableEq, Repr

/-- Decimal digit characters of a natural number (ASCII codes), most
significant first; the fuel argument bounds the recursion and n + 1 steps
always suffice. -/
def natDigitsAux : Nat → Nat → List Nat → List Nat
  | 0, _, acc => acc
  | fuel + 1, n, acc =>
    if n / 10 = 0 then (48 + n % 10) :: acc
    else natDigitsAux fuel (n / 10) ((48 + n % 10) :: acc)

/-- Decimal rendering of a natural number as ASCII character codes. -/
def natDecimalChars (n : Nat) : List Nat := natDigitsAux (n + 1) n []

/-- Dotted-decimal rendering of an OID arc list as ASCII character codes
(46 is the dot), as pyasn1 prints an OBJECT IDENTIFIER. -/
def dottedOid : List Nat → List Nat
  | [] => []
  | [a] => natDecimalChars a
  | a :: b :: rest => natDecimalChars a ++ 46 :: dottedOid (b :: rest)

/-- OID 1.3.6.1.4.1.11129.2.4.5, the OCSP SCT-list extension. -/
def oidOcspSctList : List Nat := [1, 3, 6, 1, 4, 1, 11129, 2, 4, 5]

/-- The condition under which a printed OID is matched by the first textual
split of `sctlist_hex_from_ocsp_pretty_print` (handshake.py line 56): the
dotted rendering of 1.3.6.1.4.1.11129.2.4.5 is a prefix of the dotted
rendering of the OID (the search does not require it to end there). -/
def ocspOidTextMatches (arcs : List Nat) : Bool :=
  (dottedOid oidOcspSctList).isPrefixOf (dottedOid arcs)

/-- ASCII codes of the field label the pyasn1 pretty print puts before every
unnamed component value. -/
def nmEq : List Nat := [60, 110, 111, 45, 110, 97, 109, 101, 62, 61]

/-- One pretty-print line as character codes: OID and octet-string value
lines carry the unnamed-component label, any other line is kept verbatim. -/
def renderPrintItem : PrintItem → List Nat
  | PrintItem.oid arcs => nmEq ++ dottedOid arcs
  | PrintItem.octets bs => nmEq ++ octetStringPrettyPrint bs
  | PrintItem.other txt => txt

/-- The pretty print of the decoded response as one string: the lines joined
by newline (code 10), with no trailing newline — the last line ends the
string, which is what makes the second split of handshake.py line 60 able to
raise. -/
def ocspPrettyPrint : List PrintItem → List Nat
  | [] => []
  | [i] => renderPrintItem i
  | i :: j :: rest => renderPrintItem i ++ 10 :: ocspPrettyPrint (j :: rest)

/-- What follows a line in the joined pretty print: nothing when it is the
last line, otherwise a newline and the remaining lines. -/
def ocspTail : List PrintItem → List Nat
  | [] => []
  | i :: rest => 10 :: ocspPrettyPrint (i :: rest)

/-- The search text of the first split at handshake.py line 56. -/
def oidSearchMarker : List Nat := nmEq ++ dottedOid oidOcspSctList

/-- The search text of the second split at handshake.py line 59 (the label
followed by the 0x marker). -/
def hexSearchMarker : List Nat := nmEq ++ [48, 120]

/-- Model of `sctlist_hex_from_ocsp_pretty_print` (handshake.py lines 54-61)
over the pretty-printed text: split at the first occurrence of the dotted
OID search text (absent: the split has one element and the result stays
`None`); split the remainder at the first hex marker (absent: the
one-into-two unpacking raises `ValueError`); then take the characters up to
the next newline (none left: `ValueError` again, the hex value ends the
string). -/
def sctlist_hex_from_ocsp_pretty_print (txt : List Nat) :
    Except PyError (Option (List Nat)) :=
  match splitFirst oidSearchMarker txt with
  | none => Except.ok none
  | some pr1 =>
    match splitFirst hexSearchMarker pr1.2 with
    | none => Except.error PyError.valueError
    | some pr2 =>
      match splitFirst [10] pr2.2 with
      | none => Except.error PyError.valueError
      | some pr3 => Except.ok (some pr3.1)

/-- The decoded `responseBytes.response` of an OCSP response, abstracted to
the pretty-print lines that the textual search of the source walks. -/
structure OcspResponseBytes where
  items : List PrintItem
deriving DecidableEq, Repr

/-- A decoded OCSP response, as far as `scts_from_ocsp_resp` looks at it:
the optional `responseBytes` component. -/
structure OcspResponse where
  responseBytes : Option OcspResponseBytes
deriving DecidableEq, Repr

/-- Lines 91-97 of handshake.py, applied to the OCTET STRING decoded at line
90: the inner bytes are recovered the same way as in `scts_from_cert` — the
part of the pretty print after the last 0x marker, unhexlified — and the
result is parsed as the TLS-encoded SctList. -/
def scts_from_inner_os (inner : Bytes) : Except PyError (List Bytes) :=
  match unhexlifyChars (splitLast0x (octetStringPrettyPrint inner)) with
  | none => Except.error PyError.parseError
  | some sctlistDer =>
    match parseSctList sctlistDer with
    | none => Except.error PyError.parseError
    | some entries => Except.ok entries

/-- Lines 89-97 of handshake.py, applied to the hex characters found in the
pretty print: they are unhexlified (line 89) and decoded as an OCTET STRING
(line 90), whose contents are handled by `scts_from_inner_os`. -/
def scts_from_found_hex (hexStr : List Nat) : Except PyError (List Bytes) :=
  match unhexlifyChars hexStr with
  | none => Except.error PyError.parseError
  | some osDer =>
    match derDecodeOctetString osDer with
    | none => Except.error PyError.parseError
    | some inner => scts_from_inner_os inner

/-- Model of `scts_from_ocsp_resp` (handshake.py lines 64-98).  The pyasn1
decode of the DER is abstracted: `none` models a falsy `ocsp_resp_der`
(absent or empty), otherwise the function receives the decoded structure and
greps its pretty print; a found hex value is decoded by
`scts_from_found_hex`.  `Except.error` models an exception escaping the
function. -/
def scts_from_ocsp_resp (ocsp : Option OcspResponse) : Except PyError (List Bytes) :=
  match ocsp with
  | none => Except.ok []
  | some resp =>
    match resp.responseBytes with
    | none => Except.ok []
    | some rb =>
      match sctlist_hex_from_ocsp_pretty_print (ocspPrettyPrint rb.items) with
      | Except.error e => Except.error e
      | Except.ok none => Except.ok []
      | Except.ok (some hexStr) => scts_from_found_hex hexStr

/-- The spec description of decoding one located extension value: decode the
`extnValue` OCTET STRING contents once and parse the inner bytes as the
TLS-encoded SctList; parse failures are exceptions. -/
def scts_of_extnValue_spec (v : Bytes) : Except PyError (List Bytes) :=
  match derDecodeOctetString v with
  | none => Except.error PyError.parseError
  | some inner =>
    match parseSctList inner with
    | none => Except.error PyError.parseError
    | some entries => Except.ok entries

/-- Test for the presence of an extension item with exactly the OCSP SCT-list
OID 1.3.6.1.4.1.11129.2.4.5. -/
def hasExactOcspSctOid (items : List PrintItem) : Bool :=
  items.any (fun i =>
    match i with
    | PrintItem.oid arcs => arcs == oidOcspSctList
    | _ => false)

/-- Model of `scts_from_tls_ext_18` (handshake.py lines 101-119): a falsy
input (absent or empty) yields the empty list, otherwise the TDF bytes are
parsed as a `TlsExtension18` envelope (parser modelled from the spec since
`ctzzy/tls/sctlist.py` is not under src/); `none` models an exception. -/
def scts_from_tls_ext_18 (tdf : Option Bytes) : Option (List Bytes) :=
  if pyTruthy tdf then parseTlsExtension18 (tdf.getD [])
  else some []

/-- The wire framing the spec says is captured verbatim for a TLS
extension-18 reply: `u16 ext_type || u16 inner_len || inner`. -/
def ext18_wire (extType inlen : Nat) (inner : Bytes) : Bytes :=
  u16be extType ++ u16be inlen ++ inner

/-- Model of evaluating the subscript `reduce_func[(...), (...), (...)]` at
handshake.py line 186: `reduce_func` is a plain local function and Python
function objects define no `__getitem__`, so the subscript raises
`TypeError` before `functools.reduce` is even entered. -/
def reduce_func_subscript : Except PyError Unit := Except.error PyError.typeError

/-- Model of `serverinfo_cli_parse_cb` (handshake.py lines 178-192) acting on
the `ctx.tls_ext_18_tdf` slot.  For `ext_type = 18` the source evaluates
`fmt, values = reduce(reduce_func[...], initializer)` and then
`ctx.tls_ext_18_tdf = struct.pack(fmt, *values)`; the subscript raises, so
the pack line (which would store the verbatim wire bytes) is never reached.
Any other extension type leaves the slot unchanged. -/
def serverinfo_cli_parse_cb (extType inlen : Nat) (buf : Bytes) (slot : Option Bytes) :
    Except PyError (Option Bytes) :=
  if extType = 18 then
    match reduce_func_subscript with
    | Except.error e => Except.error e
    | Except.ok _ => Except.ok (some (ext18_wire extType inlen buf))
  else Except.ok slot

/-- The pieces of the OpenSSL context that `create_context` configures and
that `do_handshake` later reads back: whether each capture callback was
registered, and the two capture slots the callbacks write into. -/
structure SslCtx where
  ext18CallbackRegistered : Bool
  ocspCallbackRegistered : Bool
  tls_ext_18_tdf : Option Bytes
  ocsp_resp_der : Option Bytes
deriving DecidableEq, Repr

/-- Model of `create_context` (handshake.py lines 156-217): both capture
slots start as `None`; the extension-18 callback is registered only when
`scts_tls` is true and the OCSP callback only when `scts_ocsp` is true. -/
def create_context (scts_tls scts_ocsp : Bool) : SslCtx :=
  { ext18CallbackRegistered := scts_tls
    ocspCallbackRegistered := scts_ocsp
    tls_ext_18_tdf := none
    ocsp_resp_der := none }

/-- Model of `TlsHandshakeResult` (handshake.py lines 122-144): the six
stored fields.  Certificates are identified with their DER bytes, so
`OpenSSL.crypto.dump_certificate` is the identity in this model. -/
structure TlsHandshakeResult where
  ee_cert_der : Option Bytes
  issuer_cert_der : Option Bytes
  more_issuer_cert_der_candidates : List Bytes
  ocsp_resp_der : Option Bytes
  tls_ext_18_tdf : Option Bytes
  err : String
deriving DecidableEq, Repr

/-- What the external TLS world delivers on a connection that completes the
handshake: the peer certificate, the presented chain (both as DER), and what
the registered callbacks captured into the context slots. -/
structure ConnData where
  eeCert : Bytes
  chain : List Bytes
  ext18Capture : Option Bytes
  ocspCapture : Option Bytes
deriving DecidableEq, Repr

/-- Oracle for the external TLS transport inside the `try` block of
`do_handshake`: `Except.error msg` models an exception with message `msg`
raised by `sock.connect`, `sock.do_handshake` or the peer getters;
`Except.ok` carries the peer data. -/
structure TlsNet where
  conn : Except String ConnData
deriving Repr

/-- Outcome of a `do_handshake` call: either a returned result or a
propagated exception, in both cases together with whether `sock.close()` was
executed before leaving the function. -/
inductive HsOutcome
  | result (r : TlsHandshakeResult) (socketClosed : Bool)
  | raised (e : PyError) (socketClosed : Bool)
deriving DecidableEq, Repr

/-- The returned result of an outcome, if any. -/
def HsOutcome.resultOrNone : HsOutcome → Option TlsHandshakeResult
  | HsOutcome.result r _ => some r
  | HsOutcome.raised _ _ => none

/-- Whether the socket was closed on the way out. -/
def HsOutcome.sockClosed : HsOutcome → Bool
  | HsOutcome.result _ b => b
  | HsOutcome.raised _ b => b

/-- Test for a NUL character in the domain string.  The pyOpenSSL method
`Connection.set_tlsext_host_name` raises `TypeError` when the encoded name
contains a NUL byte. -/
def hasNulByte (s : String) : Bool := s.toList.any (fun c => c.toNat = 0)

/-- Advance the context over the handshake: a registered callback may have
written its capture slot (the capture values come from the oracle), an
unregistered one cannot have. -/
def ctxAfterHandshake (ctx : SslCtx) (d : ConnData) : SslCtx :=
  { ctx with
    tls_ext_18_tdf := if ctx.ext18CallbackRegistered then d.ext18Capture else ctx.tls_ext_18_tdf
    ocsp_resp_der := if ctx.ocspCallbackRegistered then d.ocspCapture else ctx.ocsp_resp_der }

/-- The result built when the `try` block of `do_handshake` raises
(handshake.py lines 265-296): all locals keep their initial values and `err`
becomes the domain, a colon separator and the exception message, falling
back to the exception type when
the message is empty.  The exception-at-a-partial-point states (an exception
after some locals were already assigned) are collapsed into this
all-or-nothing shape. -/
def handshakeErrorResult (domain msg : String) : TlsHandshakeResult :=
  { ee_cert_der := none
    issuer_cert_der := none
    more_issuer_cert_der_candidates := []
    ocsp_resp_der := none
    tls_ext_18_tdf := none
    err := domain ++ ": " ++ (if msg = "" then "<class Exception>" else msg) }

/-- The result built after a completed handshake (handshake.py lines
247-263 and 273-296): the issuer is the second chain certificate when the
chain is longer than 1, the candidate list is the EE certificate prepended
to the whole presented chain, and the capture slots are copied out only when
the corresponding flag is set and the captured value is truthy. -/
def handshakeSuccessResult (scts_tls scts_ocsp : Bool) (d : ConnData) : TlsHandshakeResult :=
  let ctx2 := ctxAfterHandshake (create_context scts_tls scts_ocsp) d
  { ee_cert_der := some d.eeCert
    issuer_cert_der := if 1 < d.chain.length then d.chain.get? 1 else none
    more_issuer_cert_der_candidates := d.eeCert :: d.chain
    ocsp_resp_der :=
      if scts_ocsp && pyTruthy ctx2.ocsp_resp_der then ctx2.ocsp_resp_der else none
    tls_ext_18_tdf :=
      if scts_tls && pyTruthy ctx2.tls_ext_18_tdf then ctx2.tls_ext_18_tdf else none
    err := "" }

/-- Model of `do_handshake` (handshake.py lines 220-296).  Lines 229-233 run
before the `try` block: in particular `sock.set_tlsext_host_name` raises
`TypeError` for a domain containing a NUL byte, and that exception propagates
without `sock.close()` running, because the `finally` clause guards only
lines 243-263.  Once the `try` block is entered, the `finally` clause closes
the socket on both the success and the exception path. -/
def do_handshake (domain : String) (scts_tls scts_ocsp : Bool) (net : TlsNet) : HsOutcome :=
  if hasNulByte domain then
    HsOutcome.raised PyError.typeError false
  else
    match net.conn with
    | Except.error msg => HsOutcome.result (handshakeErrorResult domain msg) true
    | Except.ok d => HsOutcome.result (handshakeSuccessResult scts_tls scts_ocsp d) true

/-- Modelled from the spec: the precert path of `verify_scts`
(`ctzzy/sct/verification.py` is not under src/) tries the issuer candidates
in order and accepts the first whose signature verifies; the cryptographic
check is abstracted into the predicate. -/
def firstVerifying (verifies : Bytes → Bool) : List Bytes → Option Bytes
  | [] => none
  | c :: cs => if verifies c then some c else firstVerifying verifies cs

/-- The SCT fields consumed by the signature-input builders. -/
structure SctFields where
  timestamp : Nat
  extensionBytes : Bytes
deriving DecidableEq, Repr

/-- Modelled from the spec: `create_signature_input`
(`ctzzy/sct/signature_input.py` is not under src/), spec section 4.4: the
leaf signed input is `u8 sct_version (0) || u8 signature_type (0) ||
u64 timestamp || u16 entry_type (0) || u24 cert_len || cert_der ||
opaque extensions<u16>`. -/
def create_signature_input (eeCertDer : Bytes) (sct : SctFields) : Bytes :=
  0 :: 0 :: u64be sct.timestamp ++ u16be 0 ++ u24be eeCertDer.length ++ eeCertDer
    ++ u16be sct.extensionBytes.length ++ sct.extensionBytes

/-- Modelled from the spec: `create_signature_input_precert`
(`ctzzy/sct/signature_input.py` is not under src/), spec section 4.4: the
precert signed input is `u8 sct_version (0) || u8 signature_type (0) ||
u64 timestamp || u16 entry_type (1) || issuer_key_hash[32] || u24 tbs_len ||
tbs_no_sct || opaque extensions<u16>`. -/
def create_signature_input_precert (issuerKeyHash tbsNoSct : Bytes) (sct : SctFields) : Bytes :=
  0 :: 0 :: u64be sct.timestamp ++ u16be 1 ++ issuerKeyHash
    ++ u24be tbsNoSct.length ++ tbsNoSct
    ++ u16be sct.extensionBytes.length ++ sct.extensionBytes

/-- The entry-type field of a signed input: bytes 10 and 11, right after the
two version bytes and the 8 timestamp bytes. -/
def entryTypeField (bs : Bytes) : Bytes := (bs.drop 10).take 2

/-- Which signature-input builder a verification call hands to
`verify_scts`. -/
inductive SignInputKind
  | leaf
  | precert
deriving DecidableEq, Repr

/-- Which SCT channel of the handshake result a verification call verifies. -/
inductive Channel
  | cert
  | tls
  | ocsp
deriving DecidableEq, Repr

/-- The argument record a wrapper in verify_scts.py passes to `verify_scts`:
the channel whose SCTs are verified, the selected signature-input builder,
and the issuer arguments (`none` models passing Python `None`). -/
structure VerifyCall where
  scts_channel : Channel
  sign_input_func : SignInputKind
  issuer_cert : Option (Option Bytes)
  more_issuer_cert_candidates : Option (List Bytes)
deriving DecidableEq, Repr

/-- Model of `verify_scts_by_cert` (verify_scts.py lines 96-111): the
certificate channel, the precert builder, the issuer certificate and the
issuer candidate list. -/
def verify_scts_by_cert (res : TlsHandshakeResult) : VerifyCall :=
  { scts_channel := Channel.cert
    sign_input_func := SignInputKind.precert
    issuer_cert := some res.issuer_cert_der
    more_issuer_cert_candidates := some res.more_issuer_cert_der_candidates }

/-- Model of `verify_scts_by_tls` (verify_scts.py lines 114-129): the TLS
channel, the leaf builder, no issuer, no candidates. -/
def verify_scts_by_tls (_res : TlsHandshakeResult) : VerifyCall :=
  { scts_channel := Channel.tls
    sign_input_func := SignInputKind.leaf
    issuer_cert := none
    more_issuer_cert_candidates := none }

/-- Model of `verify_scts_by_ocsp` (verify_scts.py lines 132-147): the OCSP
channel, the leaf builder, no issuer, no candidates. -/
def verify_scts_by_ocsp (_res : TlsHandshakeResult) : VerifyCall :=
  { scts_channel := Channel.ocsp
    sign_input_func := SignInputKind.leaf
    issuer_cert := none
    more_issuer_cert_candidates := none }

/-- The three verification tasks the CLI can select. -/
inductive Task
  | byCert
  | byTls
  | byOcsp
deriving DecidableEq, Repr

/-- Dispatch a task to its wrapper. -/
def runTask (t : Task) (res : TlsHandshakeResult) : VerifyCall :=
  match t with
  | Task.byCert => verify_scts_by_cert res
  | Task.byTls => verify_scts_by_tls res
  | Task.byOcsp => verify_scts_by_ocsp res

/-- Observable events of one `scrape_and_verify_scts` call: the host header,
the EV/issuer info block, a transport-failure warning, a task header, and a
task execution carrying the argument record it passes to `verify_scts`.  The
per-SCT display of the results is not modelled. -/
inductive Event
  | hostHeader (h : String)
  | certInfo
  | warning (msg : String)
  | taskHeader (t : Task)
  | taskRun (t : Task) (call : VerifyCall)
deriving DecidableEq, Repr

/-- Model of lines 230-256 of verify_scts.py, the part of
`scrape_and_verify_scts` after the handshake: print the host header; when the
EE certificate is truthy print the info block; when `res.err` is truthy print
it as a warning and do nothing else, otherwise run every selected
verification task in order. -/
def scrape_events (hostname : String) (tasks : List Task) (res : TlsHandshakeResult) :
    List Event :=
  [Event.hostHeader hostname]
    ++ (if pyTruthy res.ee_cert_der then [Event.certInfo] else [])
    ++ (if res.err ≠ "" then [Event.warning res.err]
        else tasks.flatMap (fun t => [Event.taskHeader t, Event.taskRun t (runTask t res)]))

/-- The capture flags `scrape_and_verify_scts` passes to `do_handshake`
(verify_scts.py lines 227-229): extension-18 capture iff the TLS task is
selected, OCSP capture iff the OCSP task is selected. -/
def scrapeFlags (tasks : List Task) : Bool × Bool :=
  (tasks.contains Task.byTls, tasks.contains Task.byOcsp)

/-- The handshake call made by `scrape_and_verify_scts` for one host. -/
def scrapeHandshake (hostname : String) (tasks : List Task) (net : TlsNet) : HsOutcome :=
  do_handshake hostname (scrapeFlags tasks).1 (scrapeFlags tasks).2 net

/-- Model of the whole `scrape_and_verify_scts` (verify_scts.py lines
224-256): perform the handshake with the task-derived capture flags, then
emit the events; an exception propagating out of `do_handshake` propagates
out of this function too. -/
def scrape_and_verify_scts (hostname : String) (tasks : List Task) (net : TlsNet) :
    Except PyError (List Event) :=
  match scrapeHandshake hostname tasks net with
  | HsOutcome.raised e _ => Except.error e
  | HsOutcome.result res _ => Except.ok (scrape_events hostname tasks res)

/-- The argparse default for the task selector (verify_scts.py lines 56-62):
all three tasks; `--cert-only` stores `[verify_scts_by_cert]` alone. -/
def defaultTasks : List Task := [Task.byCert, Task.byTls, Task.byOcsp]

/-- The attributes argparse stores on the namespace in `create_parser`
(verify_scts.py lines 32-93).  The option declared as
`-df` alias `--domain-file` is stored under the dest derived from its first
long option string, `domain_file`. -/
structure ArgsNamespace where
  loglevel : Nat
  verification_tasks : List Task
  log_list_filename : Option String
  domain_file : String
deriving DecidableEq, Repr

/-- A value read off the argparse namespace. -/
inductive AttrValue
  | nat (n : Nat)
  | tasks (ts : List Task)
  | optStr (s : Option String)
  | str (s : String)
deriving DecidableEq, Repr

/-- Model of Python attribute access on the argparse namespace: reading an
attribute that was never stored raises `AttributeError`.  In particular
`args.df` raises, because the domain-file option is stored as
`args.domain_file`. -/
def ArgsNamespace.getattr (a : ArgsNamespace) (name : String) : Except PyError AttrValue :=
  if name = "loglevel" then Except.ok (AttrValue.nat a.loglevel)
  else if name = "verification_tasks" then Except.ok (AttrValue.tasks a.verification_tasks)
  else if name = "log_list_filename" then Except.ok (AttrValue.optStr a.log_list_filename)
  else if name = "domain_file" then Except.ok (AttrValue.str a.domain_file)
  else Except.error PyError.attributeError

/-- How a Python process run of `main` ends: a normal `sys.exit`-style code,
or an uncaught exception (which CPython turns into exit status 1). -/
inductive ExitOutcome
  | exited (code : Nat)
  | uncaught (e : PyError)
deriving DecidableEq, Repr

/-- The process exit status of an outcome: an uncaught exception exits 1. -/
def exitCodeOf : ExitOutcome → Nat
  | ExitOutcome.exited c => c
  | ExitOutcome.uncaught _ => 1

/-- Model of `main` after successful argument parsing (verify_scts.py lines
259-283).  The logger setup and CT-log-list construction are modelled as
effect-free.  Line 274 evaluates `os.path.isfile(Path(args.df))`: the
attribute read happens first and raises `AttributeError`, so the
readable-file branch (host loop, then falling off `main` with exit code 0)
and the unreadable-file branch (printing a message and returning, also exit
code 0) are both dead code; they are kept here behind the attribute read. -/
def main_after_parse (args : ArgsNamespace) (isfileCheck : String → Bool) : ExitOutcome :=
  match args.getattr "df" with
  | Except.error e => ExitOutcome.uncaught e
  | Except.ok v =>
    match v with
    | AttrValue.str df =>
      if isfileCheck df then ExitOutcome.exited 0 else ExitOutcome.exited 0
    | _ => ExitOutcome.uncaught PyError.typeError

/-- Process exit code of one CLI invocation: argparse misuse makes the parser
call `parser.error`, which exits with status 2; otherwise the code is the
outcome of `main`. -/
def cli_exit_code (parse : Except Unit ArgsNamespace) (isfileCheck : String → Bool) : Nat :=
  match parse with
  | Except.error _ => 2
  | Except.ok args => exitCodeOf (main_after_parse args isfileCheck)

/-- Decidable equality for outcomes of the embedded fallible fragments. -/
instance {ε α : Type} [DecidableEq ε] [DecidableEq α] : DecidableEq (Except ε α)
  | Except.ok a, Except.ok b =>
    if h : a = b then Decidable.isTrue (by rw [h])
    else Decidable.isFalse (fun hh => h (by injection hh))
  | Except.error a, Except.error b =>
    if h : a = b then Decidable.isTrue (by rw [h])
    else Decidable.isFalse (fun hh => h (by injection hh))
  | Except.ok _, Except.error _ => Decidable.isFalse (fun hh => nomatch hh)
  | Except.error _, Except.ok _ => Decidable.isFalse (fun hh => nomatch hh)

theorem isBytes_mem {bs : Bytes} (h : isBytes bs = true) : ∀ b ∈ bs, b < 256 := by
  intro b hb
  have := List.all_eq_true.mp h b hb
  simpa using this

theorem isBytes_of_mem {bs : Bytes} (h : ∀ b ∈ bs, b < 256) : isBytes bs = true := by
  rw [isBytes, List.all_eq_true]
  intro b hb
  simpa using h b hb

theorem isBytes_cons {b : Nat} {tl : Bytes} (h : isBytes (b :: tl) = true) :
    b < 256 ∧ isBytes tl = true :=
  ⟨isBytes_mem h b (by simp), isBytes_of_mem (fun x hx => isBytes_mem h x (List.mem_cons_of_mem _ hx))⟩

theorem hexCharVal_hexDigitCode (d : Nat) (hd : d < 16) :
    hexCharVal (hexDigitCode d) = some d := by
  by_cases h : d < 10
  · have h1 : hexDigitCode d = 48 + d := by simp [hexDigitCode, h]
    rw [h1]
    simp only [hexCharVal]
    rw [if_pos (by omega : 48 ≤ 48 + d ∧ 48 + d ≤ 57)]
    congr 1
    omega
  · have h1 : hexDigitCode d = 87 + d := by simp [hexDigitCode, h]
    rw [h1]
    simp only [hexCharVal]
    rw [if_neg (by omega : ¬(48 ≤ 87 + d ∧ 87 + d ≤ 57)),
      if_pos (by omega : 97 ≤ 87 + d ∧ 87 + d ≤ 102)]
    congr 1
    omega

theorem unhexlifyChars_bytesToHexChars (bs : Bytes) (hb : isBytes bs = true) :
    unhexlifyChars (bytesToHexChars bs) = some bs := by
  induction bs with
  | nil => rfl
  | cons b tl ih =>
    obtain ⟨hb1, hb2⟩ := isBytes_cons hb
    have e1 := hexCharVal_hexDigitCode (b / 16) (by omega)
    have e2 := hexCharVal_hexDigitCode (b % 16) (by omega)
    have h1 : bytesToHexChars (b :: tl)
        = hexDigitCode (b / 16) :: hexDigitCode (b % 16) :: bytesToHexChars tl := by
      simp only [bytesToHexChars, List.flatMap_cons, List.cons_append, List.nil_append]
    rw [h1]
    show (match hexCharVal (hexDigitCode (b / 16)), hexCharVal (hexDigitCode (b % 16)),
        unhexlifyChars (bytesToHexChars tl) with
      | some hv, some lv, some l => some ((hv * 16 + lv) :: l)
      | _, _, _ => none) = some (b :: tl)
    rw [e1, e2, ih hb2]
    show some ((b / 16 * 16 + b % 16) :: tl) = some (b :: tl)
    have hbb : b / 16 * 16 + b % 16 = b := by omega
    rw [hbb]

theorem bytesToHexChars_mem (bs : Bytes) (hb : isBytes bs = true) :
    ∀ c ∈ bytesToHexChars bs, (48 ≤ c ∧ c ≤ 57) ∨ (97 ≤ c ∧ c ≤ 102) := by
  intro c hc
  simp only [bytesToHexChars, List.mem_flatMap] at hc
  obtain ⟨b, hbmem, hcmem⟩ := hc
  have hb256 : b < 256 := isBytes_mem hb b hbmem
  have hrange : ∀ d : Nat, d < 16 →
      (48 ≤ hexDigitCode d ∧ hexDigitCode d ≤ 57)
        ∨ (97 ≤ hexDigitCode d ∧ hexDigitCode d ≤ 102) := by
    intro d hd
    by_cases h : d < 10
    · have h1 : hexDigitCode d = 48 + d := by simp [hexDigitCode, h]
      rw [h1]
      left
      omega
    · have h1 : hexDigitCode d = 87 + d := by simp [hexDigitCode, h]
      rw [h1]
      right
      omega
  simp only [List.mem_cons, List.not_mem_nil, or_false] at hcmem
  rcases hcmem with rfl | rfl
  · exact hrange _ (by omega)
  · exact hrange _ (by omega)

theorem contains0x_eq_false : ∀ s : List Nat, (∀ c ∈ s, c ≠ 120) → contains0x s = false
  | [], _ => rfl
  | [_], _ => rfl
  | c1 :: c2 :: rest, h => by
    have h2 : (c2 == 120) = false := by
      have := h c2 (by simp)
      simpa using this
    have hr := contains0x_eq_false (c2 :: rest) (fun c hc => h c (List.mem_cons_of_mem _ hc))
    simp [contains0x, hr, h2]

theorem splitLast0x_hex (hx : List Nat) (h : contains0x hx = false) :
    splitLast0x (48 :: 120 :: hx) = hx := by
  simp [splitLast0x, h]

theorem recover_inner_hex (bs : Bytes) (hb : isBytes bs = true)
    (hp : allPrintable bs = false) :
    unhexlifyChars (splitLast0x (octetStringPrettyPrint bs)) = some bs := by
  have h120 : ∀ c ∈ bytesToHexChars bs, c ≠ 120 := by
    intro c hc
    rcases bytesToHexChars_mem bs hb c hc with h | h <;> omega
  have hc0 : contains0x (bytesToHexChars bs) = false := contains0x_eq_false _ h120
  have h1 : octetStringPrettyPrint bs = 48 :: 120 :: bytesToHexChars bs := by
    simp [octetStringPrettyPrint, hp]
  rw [h1, splitLast0x_hex _ hc0]
  exact unhexlifyChars_bytesToHexChars bs hb

theorem splitFirst_cons (pat : List Nat) (c : Nat) (rest : List Nat) :
    splitFirst pat (c :: rest)
      = if pat.isPrefixOf (c :: rest) then some ([], (c :: rest).drop pat.length)
        else match splitFirst pat rest with
          | some pr => some (c :: pr.1, pr.2)
          | none => none := rfl

theorem isPrefixOf_self_append (l r : List Nat) : l.isPrefixOf (l ++ r) = true :=
  List.isPrefixOf_iff_prefix.mpr (List.prefix_append l r)

theorem splitFirst_self_append (pat rest : List Nat) (hne : pat ≠ []) :
    splitFirst pat (pat ++ rest) = some ([], rest) := by
  cases pat with
  | nil => exact absurd rfl hne
  | cons p ps =>
    rw [List.cons_append, splitFirst_cons,
      if_pos (by rw [← List.cons_append]; exact isPrefixOf_self_append (p :: ps) rest)]
    rw [← List.cons_append, List.drop_left]

theorem splitFirst_none_of_head (p : Nat) (ps : List Nat) :
    ∀ x : List Nat, (∀ c ∈ x, c ≠ p) → splitFirst (p :: ps) x = none
  | [], _ => by simp [splitFirst]
  | c :: rest, h => by
    have hc : (p == c) = false := by
      have h1 : c ≠ p := h c (by simp)
      simp [beq_eq_false_iff_ne]
      exact fun hh => h1 hh.symm
    have hpre : (p :: ps).isPrefixOf (c :: rest) = false := by
      simp [List.isPrefixOf, hc]
    have hr := splitFirst_none_of_head p ps rest (fun c hcm => h c (List.mem_cons_of_mem _ hcm))
    rw [splitFirst_cons, if_neg (by simp [hpre]), hr]

theorem isPrefixOf_append_cons : ∀ (pat u : List Nat) (w : Nat) (v : List Nat),
    pat.isPrefixOf (u ++ w :: v) = true → pat.isPrefixOf u = true ∨ w ∈ pat
  | [], _, _, _, _ => Or.inl List.isPrefixOf_nil_left
  | p :: ps, [], w, v, h => by
    right
    simp only [List.nil_append, List.isPrefixOf, Bool.and_eq_true, beq_iff_eq] at h
    rw [← h.1]
    exact List.mem_cons_self _ _
  | p :: ps, a :: u, w, v, h => by
    simp only [List.cons_append, List.isPrefixOf, Bool.and_eq_true, beq_iff_eq] at h
    rcases isPrefixOf_append_cons ps u w v h.2 with h1 | h1
    · left
      simp [List.isPrefixOf, h.1, h1]
    · right
      exact List.mem_cons_of_mem _ h1

theorem splitFirst_append_sep (pat : List Nat) (hne : pat ≠ []) (hsep : 10 ∉ pat) :
    ∀ x y : List Nat, splitFirst pat x = none →
      splitFirst pat (x ++ 10 :: y)
        = (splitFirst pat (10 :: y)).map (fun pr => (x ++ pr.1, pr.2))
  | [], y, _ => by
    cases hs : splitFirst pat (10 :: y) <;> simp [hs]
  | c :: x', y, hx => by
    rw [splitFirst_cons] at hx
    by_cases hpre : pat.isPrefixOf (c :: x') = true
    · rw [if_pos hpre] at hx
      exact absurd hx (by simp)
    · rw [if_neg hpre] at hx
      have hrec : splitFirst pat x' = none := by
        rcases hs : splitFirst pat x' with _ | pr
        · rfl
        · rw [hs] at hx
          exact absurd hx (by simp)
      have hpre2 : ¬ (pat.isPrefixOf (c :: (x' ++ 10 :: y)) = true) := by
        intro hcon
        have := isPrefixOf_append_cons pat (c :: x') 10 y (by rwa [List.cons_append])
        rcases this with h1 | h1
        · exact hpre h1
        · exact hsep h1
      rw [List.cons_append, splitFirst_cons, if_neg hpre2,
        splitFirst_append_sep pat hne hsep x' y hrec]
      cases hs2 : splitFirst pat (10 :: y) with
      | none => rfl
      | some pr => simp

theorem splitFirst_newline : ∀ (x y : List Nat), (∀ c ∈ x, c ≠ 10) →
    splitFirst [10] (x ++ 10 :: y) = some (x, y)
  | [], y, _ => by
    have h := splitFirst_self_append [10] y (by simp)
    simpa using h
  | c :: x', y, h => by
    have hc10 : c ≠ 10 := h c (by simp)
    have hpre : ¬ (([10] : List Nat).isPrefixOf (c :: (x' ++ 10 :: y)) = true) := by
      simp [List.isPrefixOf]
      exact fun hh => hc10 hh.symm
    rw [List.cons_append, splitFirst_cons, if_neg hpre,
      splitFirst_newline x' y (fun c hcm => h c (List.mem_cons_of_mem _ hcm))]

theorem natDigitsAux_mem : ∀ (fuel n : Nat) (acc : List Nat),
    (∀ c ∈ acc, 48 ≤ c ∧ c ≤ 57) → ∀ c ∈ natDigitsAux fuel n acc, 48 ≤ c ∧ c ≤ 57
  | 0, _, _, hacc => hacc
  | fuel + 1, n, acc, hacc => by
    have hstep : ∀ c ∈ (48 + n % 10) :: acc, 48 ≤ c ∧ c ≤ 57 := by
      intro c hc
      rcases List.mem_cons.mp hc with rfl | hc
      · omega
      · exact hacc c hc
    show ∀ c ∈ (if n / 10 = 0 then (48 + n % 10) :: acc
        else natDigitsAux fuel (n / 10) ((48 + n % 10) :: acc)), 48 ≤ c ∧ c ≤ 57
    by_cases h : n / 10 = 0
    · rw [if_pos h]
      exact hstep
    · rw [if_neg h]
      exact natDigitsAux_mem fuel (n / 10) _ hstep

theorem dottedOid_mem : ∀ (arcs : List Nat) (c : Nat), c ∈ dottedOid arcs →
    c = 46 ∨ (48 ≤ c ∧ c ≤ 57)
  | [], c, h => absurd h (by simp [dottedOid])
  | [a], c, h => by
    right
    have h2 : c ∈ natDigitsAux (a + 1) a [] := h
    exact natDigitsAux_mem _ _ _ (by simp) c h2
  | a :: b :: rest, c, h => by
    have heq : dottedOid (a :: b :: rest) = natDecimalChars a ++ 46 :: dottedOid (b :: rest) :=
      rfl
    rw [heq] at h
    rcases List.mem_append.mp h with h1 | h1
    · right
      have h2 : c ∈ natDigitsAux (a + 1) a [] := h1
      exact natDigitsAux_mem _ _ _ (by simp) c h2
    · rcases List.mem_cons.mp h1 with rfl | h2
      · exact Or.inl rfl
      · exact dottedOid_mem (b :: rest) c h2

set_option maxRecDepth 4000 in
theorem derReadLen_mem (bs : Bytes) (p : Nat × Bytes) (h : derReadLen bs = some p) :
    ∀ z ∈ p.2, z ∈ bs := by
  intro z hz
  unfold derReadLen at h
  split at h
  · exact absurd h (by simp)
  · split at h
    · injection h with h2
      subst h2
      exact List.mem_cons_of_mem _ hz
    · split at h
      · exact absurd h (by simp)
      · split at h
        · injection h with h2
          subst h2
          exact List.mem_cons_of_mem _ (List.mem_of_mem_drop hz)
        · exact absurd h (by simp)

theorem derDecodeOctetString_mem (bs inner : Bytes)
    (h : derDecodeOctetString bs = some inner) : ∀ x ∈ inner, x ∈ bs := by
  intro x hx
  unfold derDecodeOctetString at h
  split at h
  · rename_i rest
    split at h
    · rename_i p hd
      split at h
      · injection h with h2
        subst h2
        exact List.mem_cons_of_mem _ (derReadLen_mem rest p hd x (List.mem_of_mem_take hx))
      · exact absurd h (by simp)
    · exact absurd h (by simp)
  · exact absurd h (by simp)

theorem isBytes_derDecode (bs inner : Bytes) (h : derDecodeOctetString bs = some inner)
    (hb : isBytes bs = true) : isBytes inner = true :=
  isBytes_of_mem (fun x hx => isBytes_mem hb x (derDecodeOctetString_mem bs inner h x hx))

theorem find?_eq_head?_filter {α : Type} (p : α → Bool) :
    ∀ l : List α, l.find? p = (l.filter p).head?
  | [] => rfl
  | a :: l => by
    cases h : p a with
    | true =>
      rw [List.find?_cons_of_pos _ h, List.filter_cons_of_pos h]
      rfl
    | false =>
      rw [List.find?_cons_of_neg _ (by simp [h]), List.filter_cons_of_neg (by simp [h])]
      exact find?_eq_head?_filter p l

theorem firstVerifying_eq_find? (p : Bytes → Bool) :
    ∀ l : List Bytes, firstVerifying p l = l.find? p
  | [] => rfl
  | c :: cs => by
    cases h : p c with
    | true =>
      rw [firstVerifying, h, List.find?_cons_of_pos _ h]
      rfl
    | false =>
      rw [firstVerifying, h, List.find?_cons_of_neg _ (by simp [h])]
      exact firstVerifying_eq_find? p cs

/-- C1: for every handshake result, the certificate channel hands
`verify_scts` the precert signature-input builder together with the issuer
certificate and the issuer candidate list, while the TLS and OCSP channels
hand it the leaf builder with no issuer certificate and no issuer
candidates; moreover the leaf builder emits entry type 0 and the precert
builder entry type 1 at the entry-type position of the signed input. -/
theorem c1_channel_builders :
    (∀ res : TlsHandshakeResult,
      (verify_scts_by_cert res).scts_channel = Channel.cert ∧
      (verify_scts_by_cert res).sign_input_func = SignInputKind.precert ∧
      (verify_scts_by_cert res).issuer_cert = some res.issuer_cert_der ∧
      (verify_scts_by_cert res).more_issuer_cert_candidates
        = some res.more_issuer_cert_der_candidates ∧
      (verify_scts_by_tls res).scts_channel = Channel.tls ∧
      (verify_scts_by_tls res).sign_input_func = SignInputKind.leaf ∧
      (verify_scts_by_tls res).issuer_cert = none ∧
      (verify_scts_by_tls res).more_issuer_cert_candidates = none ∧
      (verify_scts_by_ocsp res).scts_channel = Channel.ocsp ∧
      (verify_scts_by_ocsp res).sign_input_func = SignInputKind.leaf ∧
      (verify_scts_by_ocsp res).issuer_cert = none ∧
      (verify_scts_by_ocsp res).more_issuer_cert_candidates = none) ∧
    (∀ (d : Bytes) (s : SctFields),
      entryTypeField (create_signature_input d s) = [0, 0]) ∧
    (∀ (ikh tbs : Bytes) (s : SctFields),
      entryTypeField (create_signature_input_precert ikh tbs s) = [0, 1]) :=
  ⟨fun _ => ⟨rfl, rfl, rfl, rfl, rfl, rfl, rfl, rfl, rfl, rfl, rfl, rfl⟩,
   fun _ _ => rfl, fun _ _ _ => rfl⟩

/-- C4: the TLS extension-18 callback does not store the wire framing.  At a
concrete extension-18 reply (inner length 3, payload 1,2,3) the callback
raises `TypeError` — the subscript `reduce_func[...]` is evaluated on a
function object — instead of storing the verbatim wire bytes
`u16 18 || u16 3 || payload` that the claim describes. -/
theorem c4_ext18_capture_code_bug :
    serverinfo_cli_parse_cb 18 3 [1, 2, 3] none = Except.error PyError.typeError ∧
    ext18_wire 18 3 [1, 2, 3] = [0, 18, 0, 3, 1, 2, 3] ∧
    serverinfo_cli_parse_cb 18 3 [1, 2, 3] none
      ≠ Except.ok (some (ext18_wire 18 3 [1, 2, 3])) :=
  ⟨rfl, rfl, fun h => nomatch h⟩

theorem ocspTail_of_ne_nil (l : List PrintItem) (h : l ≠ []) :
    ocspTail l = 10 :: ocspPrettyPrint l := by
  cases l with
  | nil => exact absurd rfl h
  | cons i rest => rfl

theorem ocspPrettyPrint_cons_eq (i : PrintItem) (rest : List PrintItem) :
    ocspPrettyPrint (i :: rest) = renderPrintItem i ++ ocspTail rest := by
  cases rest with
  | nil => simp [ocspPrettyPrint, ocspTail]
  | cons j r => rfl

theorem ocspPrettyPrint_append_cons :
    ∀ (pre : List PrintItem) (i : PrintItem) (rest : List PrintItem), pre ≠ [] →
      ocspPrettyPrint (pre ++ i :: rest)
        = ocspPrettyPrint pre ++ 10 :: ocspPrettyPrint (i :: rest)
  | [], _, _, h => absurd rfl h
  | [p], i, rest, _ => rfl
  | p :: q :: pre', i, rest, _ => by
    have ih := ocspPrettyPrint_append_cons (q :: pre') i rest (by simp)
    have h1 : ocspPrettyPrint ((p :: q :: pre') ++ i :: rest)
        = renderPrintItem p ++ 10 :: ocspPrettyPrint ((q :: pre') ++ i :: rest) := rfl
    have h2 : ocspPrettyPrint (p :: q :: pre')
        = renderPrintItem p ++ 10 :: ocspPrettyPrint (q :: pre') := rfl
    rw [h1, ih, h2]
    simp [List.append_assoc]

theorem c6_oid_split (pre : List PrintItem) (arcs : List Nat)
    (restItems : List PrintItem)
    (hpre : splitFirst oidSearchMarker (ocspPrettyPrint pre) = none)
    (hmatch : ocspOidTextMatches arcs = true) :
    ∃ (before dsuffix : List Nat),
      splitFirst oidSearchMarker
          (ocspPrettyPrint (pre ++ PrintItem.oid arcs :: restItems))
        = some (before, dsuffix ++ ocspTail restItems) ∧
      (∀ c ∈ dsuffix, c = 46 ∨ (48 ≤ c ∧ c ≤ 57)) := by
  have hm2 : (dottedOid oidOcspSctList).isPrefixOf (dottedOid arcs) = true := hmatch
  obtain ⟨dsuffix, hds⟩ := List.isPrefixOf_iff_prefix.mp hm2
  have hdchars : ∀ c ∈ dsuffix, c = 46 ∨ (48 ≤ c ∧ c ≤ 57) := by
    intro c hc
    exact dottedOid_mem arcs c (by rw [← hds]; exact List.mem_append_right _ hc)
  have hline : ocspPrettyPrint (PrintItem.oid arcs :: restItems)
      = oidSearchMarker ++ (dsuffix ++ ocspTail restItems) := by
    rw [ocspPrettyPrint_cons_eq]
    show (nmEq ++ dottedOid arcs) ++ ocspTail restItems = _
    rw [← hds]
    show (nmEq ++ (dottedOid oidOcspSctList ++ dsuffix)) ++ ocspTail restItems
      = (nmEq ++ dottedOid oidOcspSctList) ++ (dsuffix ++ ocspTail restItems)
    simp [List.append_assoc]
  have hbase : splitFirst oidSearchMarker
      (ocspPrettyPrint (PrintItem.oid arcs :: restItems))
      = some ([], dsuffix ++ ocspTail restItems) := by
    rw [hline]
    exact splitFirst_self_append _ _ (by decide)
  cases pre with
  | nil => exact ⟨[], dsuffix, by simpa using hbase, hdchars⟩
  | cons p pre' =>
    obtain ⟨tlm, htlm⟩ : ∃ tlm, oidSearchMarker = 60 :: tlm := ⟨_, rfl⟩
    have hpre10 : ¬ (oidSearchMarker.isPrefixOf
        (10 :: ocspPrettyPrint (PrintItem.oid arcs :: restItems)) = true) := by
      rw [htlm]
      simp [List.isPrefixOf]
    have hres : splitFirst oidSearchMarker
        (ocspPrettyPrint ((p :: pre') ++ PrintItem.oid arcs :: restItems))
        = some (ocspPrettyPrint (p :: pre') ++ [10], dsuffix ++ ocspTail restItems) := by
      rw [ocspPrettyPrint_append_cons (p :: pre') _ _ (by simp),
        splitFirst_append_sep oidSearchMarker (by decide) (by decide) _ _ hpre,
        splitFirst_cons, if_neg hpre10, hbase]
      rfl
    exact ⟨_, dsuffix, hres, hdchars⟩

theorem c6_hex_find (mid : List PrintItem) (v : Bytes) (rest2 : List PrintItem)
    (hmid : splitFirst hexSearchMarker (ocspPrettyPrint mid) = none)
    (hprint : allPrintable v = false) :
    ∃ before, splitFirst hexSearchMarker
        (ocspPrettyPrint (mid ++ PrintItem.octets v :: rest2))
      = some (before, bytesToHexChars v ++ ocspTail rest2) := by
  have hoct : renderPrintItem (PrintItem.octets v)
      = hexSearchMarker ++ bytesToHexChars v := by
    show nmEq ++ octetStringPrettyPrint v = (nmEq ++ [48, 120]) ++ bytesToHexChars v
    have h1 : octetStringPrettyPrint v = 48 :: 120 :: bytesToHexChars v := by
      simp [octetStringPrettyPrint, hprint]
    rw [h1, List.append_assoc]
    rfl
  have hbase : splitFirst hexSearchMarker
      (ocspPrettyPrint (PrintItem.octets v :: rest2))
      = some ([], bytesToHexChars v ++ ocspTail rest2) := by
    rw [ocspPrettyPrint_cons_eq, hoct, List.append_assoc]
    exact splitFirst_self_append _ _ (by decide)
  cases mid with
  | nil => exact ⟨[], by simpa using hbase⟩
  | cons m mid' =>
    obtain ⟨tlm, htlm⟩ : ∃ tlm, hexSearchMarker = 60 :: tlm := ⟨_, rfl⟩
    have hpre10 : ¬ (hexSearchMarker.isPrefixOf
        (10 :: ocspPrettyPrint (PrintItem.octets v :: rest2)) = true) := by
      rw [htlm]
      simp [List.isPrefixOf]
    refine ⟨ocspPrettyPrint (m :: mid') ++ [10], ?_⟩
    rw [ocspPrettyPrint_append_cons (m :: mid') _ _ (by simp),
      splitFirst_append_sep hexSearchMarker (by decide) (by decide) _ _ hmid,
      splitFirst_cons, if_neg hpre10, hbase]
    rfl

theorem c6_after_to_hex (dsuffix : List Nat)
    (hds : ∀ c ∈ dsuffix, c = 46 ∨ (48 ≤ c ∧ c ≤ 57))
    (mid : List PrintItem) (v : Bytes) (rest2 : List PrintItem)
    (hmid : splitFirst hexSearchMarker (ocspPrettyPrint mid) = none)
    (hprint : allPrintable v = false) :
    ∃ before, splitFirst hexSearchMarker
        (dsuffix ++ 10 :: ocspPrettyPrint (mid ++ PrintItem.octets v :: rest2))
      = some (before, bytesToHexChars v ++ ocspTail rest2) := by
  have hdsn : splitFirst hexSearchMarker dsuffix = none := by
    obtain ⟨tl2, htl2⟩ : ∃ tl2, hexSearchMarker = 60 :: tl2 := ⟨_, rfl⟩
    rw [htl2]
    refine splitFirst_none_of_head 60 tl2 dsuffix ?_
    intro c hc
    rcases hds c hc with h | h <;> omega
  obtain ⟨tlm, htlm⟩ : ∃ tlm, hexSearchMarker = 60 :: tlm := ⟨_, rfl⟩
  have hpre10 : ¬ (hexSearchMarker.isPrefixOf
      (10 :: ocspPrettyPrint (mid ++ PrintItem.octets v :: rest2)) = true) := by
    rw [htlm]
    simp [List.isPrefixOf]
  obtain ⟨before, hfind⟩ := c6_hex_find mid v rest2 hmid hprint
  refine ⟨dsuffix ++ 10 :: before, ?_⟩
  rw [splitFirst_append_sep hexSearchMarker (by decide) (by decide) _ _ hdsn,
    splitFirst_cons, if_neg hpre10, hfind]
  rfl

theorem bytesToHexChars_ne_newline (v : Bytes) (hb : isBytes v = true) :
    ∀ c ∈ bytesToHexChars v, c ≠ 10 := by
  intro c hc
  rcases bytesToHexChars_mem v hb c hc with h | h <;> omega

theorem scts_from_found_hex_eq_spec (v : Bytes) (hbytes : isBytes v = true)
    (hinner : ∀ inner : Bytes,
      derDecodeOctetString v = some inner → allPrintable inner = false) :
    scts_from_found_hex (bytesToHexChars v) = scts_of_extnValue_spec v := by
  unfold scts_from_found_hex
  rw [unhexlifyChars_bytesToHexChars v hbytes]
  show (match derDecodeOctetString v with
    | none => Except.error PyError.parseError
    | some inner => scts_from_inner_os inner) = scts_of_extnValue_spec v
  unfold scts_of_extnValue_spec
  cases hdv : derDecodeOctetString v with
  | none => rfl
  | some inner =>
    show scts_from_inner_os inner
      = (match parseSctList inner with
        | none => Except.error PyError.parseError
        | some entries => Except.ok entries)
    unfold scts_from_inner_os
    rw [recover_inner_hex inner (isBytes_derDecode v inner hdv hbytes) (hinner inner hdv)]

/-- C5 counterexample: a certificate whose SCT-list extension has inner
octet contents that are entirely printable ASCII (the text 0000, bytes
48 48 48 48).  pyasn1 prettyPrint returns the raw text, so line 43
unhexlifies the text itself: the code parses the bytes 00 00 and returns the
empty list, while the claim — decode the extnValue once to obtain the
TLS-encoded SctList bytes and parse them — would parse 48 48 48 48, a
malformed SctList. -/
theorem c5_printable_hex_counterexample :
    scts_from_cert (Certificate.mk (TbsCertificate.mk (some
        [X509Extension.mk [1, 3, 6, 1, 4, 1, 11129, 2, 4, 2] [4, 4, 48, 48, 48, 48]])))
      = some [] ∧
    scts_embedded_spec (Certificate.mk (TbsCertificate.mk (some
        [X509Extension.mk [1, 3, 6, 1, 4, 1, 11129, 2, 4, 2] [4, 4, 48, 48, 48, 48]])))
      = none ∧
    (some ([] : List Bytes)) ≠ (none : Option (List Bytes)) :=
  ⟨by decide, by decide, by decide⟩

/-- C5 (amended): `scts_from_cert` returns the empty list when no extension
carries the SCT-list OID; and whenever the first matching extension's
decoded inner bytes are valid bytes at least one of which is non-printable
(true of every real SctList shorter than 8224 bytes, whose leading length
byte is below 32), the pretty-print hex recovery round-trips and the
function coincides with the spec description `scts_embedded_spec`.  When
every inner byte is printable, pyasn1 returns the raw text and the code
misreads it as hex — see the counterexample. -/
theorem c5_scts_from_cert_amended :
    ∀ cert : Certificate,
      ((cert.tbsCertificate.extensions.getD []).find?
          (fun (e : X509Extension) => e.extnID == oidSctList) = none →
        scts_from_cert cert = some []) ∧
      (∀ ext : X509Extension,
        (cert.tbsCertificate.extensions.getD []).find?
            (fun (e : X509Extension) => e.extnID == oidSctList) = some ext →
        ∀ osInner : Bytes, derDecodeOctetString ext.extnValue = some osInner →
          isBytes osInner = true → allPrintable osInner = false →
          scts_from_cert cert = scts_embedded_spec cert) := by
  intro cert
  constructor
  · intro hnone
    cases hext : cert.tbsCertificate.extensions with
    | none => simp [scts_from_cert, hext]
    | some es =>
      rw [hext] at hnone
      simp only [Option.getD_some] at hnone
      have hhead := find?_eq_head?_filter
        (fun (e : X509Extension) => e.extnID == oidSctList) es
      rw [hnone] at hhead
      have hfil : es.filter (fun (e : X509Extension) => e.extnID == oidSctList) = [] :=
        List.head?_eq_none_iff.mp hhead.symm
      simp [scts_from_cert, hext, hfil]
  · intro ext hfind osInner hdec hbytes hprint
    cases hext : cert.tbsCertificate.extensions with
    | none =>
      rw [hext] at hfind
      simp at hfind
    | some es =>
      rw [hext] at hfind
      simp only [Option.getD_some] at hfind
      have hhead := find?_eq_head?_filter
        (fun (e : X509Extension) => e.extnID == oidSctList) es
      rw [hfind] at hhead
      obtain ⟨tl, htl⟩ := List.head?_eq_some_iff.mp hhead.symm
      simp only [scts_from_cert, scts_embedded_spec, hext, Option.getD_some, hfind, htl]
      rw [hdec]
      show (match unhexlifyChars (splitLast0x (octetStringPrettyPrint osInner)) with
        | none => none
        | some sctlistDer => parseSctList sctlistDer) = (some osInner).bind parseSctList
      rw [recover_inner_hex osInner hbytes hprint]
      rfl

/-- Witness for the amended C5 at two concrete certificates: one with no
SCT-list extension (empty result), one whose inner SctList bytes begin with
a non-printable length byte (code agrees with the spec description). -/
theorem c5_scts_from_cert_amended_witness :
    scts_from_cert (Certificate.mk (TbsCertificate.mk
        (some [X509Extension.mk [2, 5, 29, 15] [3, 2, 5, 160]])))
      = some [] ∧
    scts_from_cert (Certificate.mk (TbsCertificate.mk (some
        [X509Extension.mk [1, 3, 6, 1, 4, 1, 11129, 2, 4, 2] [4, 5, 0, 3, 0, 1, 170]])))
      = scts_embedded_spec (Certificate.mk (TbsCertificate.mk (some
        [X509Extension.mk [1, 3, 6, 1, 4, 1, 11129, 2, 4, 2] [4, 5, 0, 3, 0, 1, 170]]))) :=
  ⟨(c5_scts_from_cert_amended (Certificate.mk (TbsCertificate.mk
      (some [X509Extension.mk [2, 5, 29, 15] [3, 2, 5, 160]])))).1 (by decide),
   (c5_scts_from_cert_amended (Certificate.mk (TbsCertificate.mk (some
      [X509Extension.mk [1, 3, 6, 1, 4, 1, 11129, 2, 4, 2] [4, 5, 0, 3, 0, 1, 170]])))).2
    (X509Extension.mk [1, 3, 6, 1, 4, 1, 11129, 2, 4, 2] [4, 5, 0, 3, 0, 1, 170])
    (by decide) [0, 3, 0, 1, 170] (by decide) (by decide) (by decide)⟩

/-- C6 counterexample: an OCSP response whose only extension OID is
1.3.6.1.4.1.11129.2.4.55 — so the extension with OID 1.3.6.1.4.1.11129.2.4.5
is absent and the claim requires the empty list — still yields one SCT,
because the textual search of handshake.py line 56 matches the dotted OID
string as a prefix of the printed 1.3.6.1.4.1.11129.2.4.55. -/
theorem c6_ocsp_oid_counterexample :
    hasExactOcspSctOid
        [PrintItem.oid [1, 3, 6, 1, 4, 1, 11129, 2, 4, 55],
         PrintItem.octets [4, 5, 0, 3, 0, 1, 170],
         PrintItem.other [32]] = false ∧
    scts_from_ocsp_resp
        (some (OcspResponse.mk (some (OcspResponseBytes.mk
            [PrintItem.oid [1, 3, 6, 1, 4, 1, 11129, 2, 4, 55],
             PrintItem.octets [4, 5, 0, 3, 0, 1, 170],
             PrintItem.other [32]]))))
      = Except.ok [[170]] ∧
    ([[170]] : List Bytes) ≠ [] :=
  ⟨by decide, by decide, by decide⟩

/-- C6 (amended): `scts_from_ocsp_resp` returns the empty list when the
response or its `responseBytes` is absent, or when the OID search text (the
unnamed-component label followed by the dotted 1.3.6.1.4.1.11129.2.4.5)
never occurs in the pretty print of the decoded response.  When the search
text occurs but no hex marker follows it, or when the found hex value ends
the pretty print (no newline after it, handshake.py line 60), the function
raises `ValueError`.  And for a response whose lines are: a prefix without
the OID search text, the matched extension's OID line (any OID whose dotted
form begins with 1.3.6.1.4.1.11129.2.4.5), lines without the hex marker,
the extension's hex value line, and at least one further line — with valid
value bytes that are not all printable and whose decoded inner SctList bytes
are also not all printable — the result equals the spec description
`scts_of_extnValue_spec`: the extnValue decoded once as an OCTET STRING and
its contents parsed as the TLS-encoded SctList. -/
theorem c6_ocsp_scts_amended :
    (scts_from_ocsp_resp none = Except.ok []) ∧
    (∀ resp : OcspResponse, resp.responseBytes = none →
      scts_from_ocsp_resp (some resp) = Except.ok []) ∧
    (∀ items : List PrintItem,
      splitFirst oidSearchMarker (ocspPrettyPrint items) = none →
      scts_from_ocsp_resp (some (OcspResponse.mk (some (OcspResponseBytes.mk items))))
        = Except.ok []) ∧
    (∀ (items : List PrintItem) (pr : List Nat × List Nat),
      splitFirst oidSearchMarker (ocspPrettyPrint items) = some pr →
      splitFirst hexSearchMarker pr.2 = none →
      scts_from_ocsp_resp (some (OcspResponse.mk (some (OcspResponseBytes.mk items))))
        = Except.error PyError.valueError) ∧
    (∀ (arcs : List Nat) (v : Bytes),
      ocspOidTextMatches arcs = true → isBytes v = true → allPrintable v = false →
      scts_from_ocsp_resp (some (OcspResponse.mk (some (OcspResponseBytes.mk
          [PrintItem.oid arcs, PrintItem.octets v]))))
        = Except.error PyError.valueError) ∧
    (∀ (pre : List PrintItem) (arcs : List Nat) (mid : List PrintItem) (v : Bytes)
        (q : PrintItem) (qs : List PrintItem),
      splitFirst oidSearchMarker (ocspPrettyPrint pre) = none →
      ocspOidTextMatches arcs = true →
      splitFirst hexSearchMarker (ocspPrettyPrint mid) = none →
      isBytes v = true → allPrintable v = false →
      (∀ inner : Bytes, derDecodeOctetString v = some inner → allPrintable inner = false) →
      scts_from_ocsp_resp (some (OcspResponse.mk (some (OcspResponseBytes.mk
          (pre ++ PrintItem.oid arcs :: (mid ++ PrintItem.octets v :: q :: qs))))))
        = scts_of_extnValue_spec v) := by
  refine ⟨rfl, ?_, ?_, ?_, ?_, ?_⟩
  · intro resp hrb
    simp [scts_from_ocsp_resp, hrb]
  · intro items hnone
    simp [scts_from_ocsp_resp, sctlist_hex_from_ocsp_pretty_print, hnone]
  · intro items pr h1 h2
    simp [scts_from_ocsp_resp, sctlist_hex_from_ocsp_pretty_print, h1, h2]
  · intro arcs v hmatch hbytes hprint
    obtain ⟨before1, dsuffix, hs1, hds⟩ :=
      c6_oid_split [] arcs [PrintItem.octets v] (by decide) hmatch
    rw [ocspTail_of_ne_nil [PrintItem.octets v] (by simp)] at hs1
    obtain ⟨before2, hs2⟩ := c6_after_to_hex dsuffix hds [] v [] (by decide) hprint
    simp only [List.nil_append] at hs1 hs2
    rw [show ocspTail ([] : List PrintItem) = [] from rfl, List.append_nil] at hs2
    have hs3 : splitFirst [10] (bytesToHexChars v) = none :=
      splitFirst_none_of_head 10 [] _ (bytesToHexChars_ne_newline v hbytes)
    have hfound : sctlist_hex_from_ocsp_pretty_print
        (ocspPrettyPrint (PrintItem.oid arcs :: [PrintItem.octets v]))
        = Except.error PyError.valueError := by
      unfold sctlist_hex_from_ocsp_pretty_print
      rw [hs1]
      show (match splitFirst hexSearchMarker
          (dsuffix ++ 10 :: ocspPrettyPrint [PrintItem.octets v]) with
        | none => Except.error PyError.valueError
        | some pr2 =>
          match splitFirst [10] pr2.2 with
          | none => Except.error PyError.valueError
          | some pr3 => Except.ok (some pr3.1)) = Except.error PyError.valueError
      rw [hs2]
      show (match splitFirst [10] (bytesToHexChars v) with
        | none => Except.error PyError.valueError
        | some pr3 => Except.ok (some pr3.1)) = Except.error PyError.valueError
      rw [hs3]
    show (match sctlist_hex_from_ocsp_pretty_print
        (ocspPrettyPrint (PrintItem.oid arcs :: [PrintItem.octets v])) with
      | Except.error e => Except.error e
      | Except.ok none => Except.ok []
      | Except.ok (some hexStr) => scts_from_found_hex hexStr)
      = Except.error PyError.valueError
    rw [hfound]
  · intro pre arcs mid v q qs hpre hmatch hmid hbytes hprint hinner
    obtain ⟨before1, dsuffix, hs1, hds⟩ :=
      c6_oid_split pre arcs (mid ++ PrintItem.octets v :: q :: qs) hpre hmatch
    rw [ocspTail_of_ne_nil (mid ++ PrintItem.octets v :: q :: qs) (by simp)] at hs1
    obtain ⟨before2, hs2⟩ := c6_after_to_hex dsuffix hds mid v (q :: qs) hmid hprint
    rw [ocspTail_of_ne_nil (q :: qs) (by simp)] at hs2
    have hs3 : splitFirst [10] (bytesToHexChars v ++ 10 :: ocspPrettyPrint (q :: qs))
        = some (bytesToHexChars v, ocspPrettyPrint (q :: qs)) :=
      splitFirst_newline _ _ (bytesToHexChars_ne_newline v hbytes)
    have hfound : sctlist_hex_from_ocsp_pretty_print
        (ocspPrettyPrint (pre ++ PrintItem.oid arcs ::
          (mid ++ PrintItem.octets v :: q :: qs)))
        = Except.ok (some (bytesToHexChars v)) := by
      unfold sctlist_hex_from_ocsp_pretty_print
      rw [hs1]
      show (match splitFirst hexSearchMarker
          (dsuffix ++ 10 :: ocspPrettyPrint (mid ++ PrintItem.octets v :: q :: qs)) with
        | none => Except.error PyError.valueError
        | some pr2 =>
          match splitFirst [10] pr2.2 with
          | none => Except.error PyError.valueError
          | some pr3 => Except.ok (some pr3.1)) = Except.ok (some (bytesToHexChars v))
      rw [hs2]
      show (match splitFirst [10] (bytesToHexChars v ++ 10 :: ocspPrettyPrint (q :: qs)) with
        | none => Except.error PyError.valueError
        | some pr3 => Except.ok (some pr3.1)) = Except.ok (some (bytesToHexChars v))
      rw [hs3]
    show (match sctlist_hex_from_ocsp_pretty_print
        (ocspPrettyPrint (pre ++ PrintItem.oid arcs ::
          (mid ++ PrintItem.octets v :: q :: qs))) with
      | Except.error e => Except.error e
      | Except.ok none => Except.ok []
      | Except.ok (some hexStr) => scts_from_found_hex hexStr)
      = scts_of_extnValue_spec v
    rw [hfound]
    show scts_from_found_hex (bytesToHexChars v) = scts_of_extnValue_spec v
    exact scts_from_found_hex_eq_spec v hbytes hinner

/-- Witness for the amended C6: the empty-response case, and the
canonical-shape case applied at a concrete response carrying one
exactly-matching extension surrounded by other lines. -/
theorem c6_ocsp_scts_amended_witness :
    scts_from_ocsp_resp none = Except.ok [] ∧
    scts_from_ocsp_resp (some (OcspResponse.mk (some (OcspResponseBytes.mk
        ([PrintItem.other [32]] ++ PrintItem.oid [1, 3, 6, 1, 4, 1, 11129, 2, 4, 5]
          :: [PrintItem.other [70, 97, 108, 115, 101]]
          ++ PrintItem.octets [4, 5, 0, 3, 0, 1, 170] :: PrintItem.other [32] :: [])))))
      = scts_of_extnValue_spec [4, 5, 0, 3, 0, 1, 170] :=
  ⟨c6_ocsp_scts_amended.1,
   c6_ocsp_scts_amended.2.2.2.2.2 [PrintItem.other [32]]
    [1, 3, 6, 1, 4, 1, 11129, 2, 4, 5] [PrintItem.other [70, 97, 108, 115, 101]]
    [4, 5, 0, 3, 0, 1, 170] (PrintItem.other [32]) [] (by decide) (by decide) (by decide)
    (by decide) (by decide)
    (by
      intro inner h
      have h2 : (some ([0, 3, 0, 1, 170] : Bytes)) = some inner :=
        (show derDecodeOctetString [4, 5, 0, 3, 0, 1, 170] = some [0, 3, 0, 1, 170]
          by decide).symm.trans h
      injection h2 with h3
      rw [← h3]
      decide)⟩

/-- C3: when the handshake result carries a non-empty `err`, the error is
reported as a warning and no verification task is executed; when `err` is
empty, every selected verification task is executed (with the argument
record its wrapper builds). -/
theorem c3_err_gates_verification :
    ∀ (hostname : String) (tasks : List Task) (res : TlsHandshakeResult),
      (res.err ≠ "" →
        Event.warning res.err ∈ scrape_events hostname tasks res ∧
        ∀ (t : Task) (c : VerifyCall),
          Event.taskRun t c ∉ scrape_events hostname tasks res) ∧
      (res.err = "" →
        ∀ t ∈ tasks,
          Event.taskRun t (runTask t res) ∈ scrape_events hostname tasks res) := by
  intro hostname tasks res
  constructor
  · intro herr
    have hev : scrape_events hostname tasks res
        = [Event.hostHeader hostname]
          ++ (if pyTruthy res.ee_cert_der then [Event.certInfo] else [])
          ++ [Event.warning res.err] := by
      simp only [scrape_events]
      rw [if_pos herr]
    constructor
    · rw [hev]
      exact List.mem_append_right _ (List.mem_singleton.mpr rfl)
    · intro t c hmem
      rw [hev] at hmem
      rcases List.mem_append.mp hmem with h1 | h2
      · rcases List.mem_append.mp h1 with ha | hb
        · exact nomatch List.mem_singleton.mp ha
        · by_cases hp : pyTruthy res.ee_cert_der = true
          · rw [if_pos hp] at hb
            exact nomatch List.mem_singleton.mp hb
          · rw [if_neg hp] at hb
            exact nomatch hb
      · exact nomatch List.mem_singleton.mp h2
  · intro herr t ht
    have hev : scrape_events hostname tasks res
        = [Event.hostHeader hostname]
          ++ (if pyTruthy res.ee_cert_der then [Event.certInfo] else [])
          ++ tasks.flatMap
              (fun x => [Event.taskHeader x, Event.taskRun x (runTask x res)]) := by
      simp only [scrape_events]
      rw [if_neg (not_not_intro herr)]
    rw [hev]
    refine List.mem_append_right _ ?_
    exact List.mem_flatMap.mpr
      ⟨t, ht, List.mem_cons_of_mem _ (List.mem_cons_self _ _)⟩

/-- Witness for C3: a transport failure gates verification at a concrete
failed result, and all three tasks run at a concrete successful result. -/
theorem c3_err_gates_verification_witness :
    (Event.warning "h: boom"
        ∈ scrape_events "h" defaultTasks
            { ee_cert_der := none, issuer_cert_der := none,
              more_issuer_cert_der_candidates := [], ocsp_resp_der := none,
              tls_ext_18_tdf := none, err := "h: boom" } ∧
      ∀ (t : Task) (c : VerifyCall),
        Event.taskRun t c
          ∉ scrape_events "h" defaultTasks
              { ee_cert_der := none, issuer_cert_der := none,
                more_issuer_cert_der_candidates := [], ocsp_resp_der := none,
                tls_ext_18_tdf := none, err := "h: boom" }) ∧
    (∀ t ∈ defaultTasks,
      Event.taskRun t
          (runTask t
            { ee_cert_der := some [48], issuer_cert_der := none,
              more_issuer_cert_der_candidates := [[48]], ocsp_resp_der := none,
              tls_ext_18_tdf := none, err := "" })
        ∈ scrape_events "h" defaultTasks
            { ee_cert_der := some [48], issuer_cert_der := none,
              more_issuer_cert_der_candidates := [[48]], ocsp_resp_der := none,
              tls_ext_18_tdf := none, err := "" }) :=
  ⟨(c3_err_gates_verification "h" defaultTasks _).1 (by decide),
   (c3_err_gates_verification "h" defaultTasks _).2 rfl⟩

/-- C2 counterexample: at a handshake delivering EE DER [0] and presented
chain [[1],[2]], the stored candidate list is [[0],[1],[2]] — the EE
certificate is prepended (handshake.py line 253), not appended — which
differs from the chain-then-EE order [[1],[2],[0]] the claim describes. -/
theorem c2_candidates_order_counterexample :
    (do_handshake "example.org" true true
        (TlsNet.mk (Except.ok (ConnData.mk [0] [[1], [2]] none none)))).resultOrNone
      = some (handshakeSuccessResult true true (ConnData.mk [0] [[1], [2]] none none)) ∧
    (handshakeSuccessResult true true
        (ConnData.mk [0] [[1], [2]] none none)).more_issuer_cert_der_candidates
      = [[0], [1], [2]] ∧
    ([[0], [1], [2]] : List Bytes) ≠ [[1], [2]] ++ [[0]] :=
  ⟨by decide, rfl, by decide⟩

/-- C2 (amended): for every handshake that completes, the candidate list
stored in the result is the EE certificate prepended to the full presented
chain in presentation order (the chain itself begins with the EE), and the
first-verifying candidate selection — modelled from the spec, since
`ctzzy/sct/verification.py` is not under src/ — tries exactly that list in
order, returning its first element that verifies. -/
theorem c2_candidates_order_amended :
    ∀ (domain : String) (tls ocsp : Bool) (net : TlsNet) (d : ConnData)
      (p : Bytes → Bool),
      hasNulByte domain = false → net.conn = Except.ok d →
      ∃ r, (do_handshake domain tls ocsp net).resultOrNone = some r ∧
        r.more_issuer_cert_der_candidates = d.eeCert :: d.chain ∧
        firstVerifying p r.more_issuer_cert_der_candidates
          = (d.eeCert :: d.chain).find? p := by
  intro domain tls ocsp net d p hnul hconn
  have hout : do_handshake domain tls ocsp net
      = HsOutcome.result (handshakeSuccessResult tls ocsp d) true := by
    simp [do_handshake, hnul, hconn]
  refine ⟨handshakeSuccessResult tls ocsp d, ?_, rfl, ?_⟩
  · rw [hout]
    rfl
  · exact firstVerifying_eq_find? p (d.eeCert :: d.chain)

/-- Witness for the amended C2 at a concrete handshake and predicate. -/
theorem c2_candidates_order_amended_witness :
    ∃ r, (do_handshake "example.org" true true
        (TlsNet.mk (Except.ok (ConnData.mk [0] [[1], [2]] none none)))).resultOrNone
      = some r ∧
      r.more_issuer_cert_der_candidates = [0] :: [[1], [2]] ∧
      firstVerifying (fun c => c == [1]) r.more_issuer_cert_der_candidates
        = ([0] :: [[1], [2]]).find? (fun c => c == [1]) :=
  c2_candidates_order_amended "example.org" true true
    (TlsNet.mk (Except.ok (ConnData.mk [0] [[1], [2]] none none)))
    (ConnData.mk [0] [[1], [2]] none none) (fun c => c == [1]) (by decide) rfl

/-- C7: every handshake that completes yields a result whose `err` is empty
and whose `issuer_cert_der` is the second certificate of the presented chain
when the chain is longer than 1, and absent when the chain has length 1. -/
theorem c7_issuer_cert_der :
    ∀ (domain : String) (tls ocsp : Bool) (net : TlsNet) (d : ConnData),
      hasNulByte domain = false → net.conn = Except.ok d →
      ∃ r, (do_handshake domain tls ocsp net).resultOrNone = some r ∧
        r.err = "" ∧
        (1 < d.chain.length → r.issuer_cert_der = d.chain.get? 1) ∧
        (d.chain.length = 1 → r.issuer_cert_der = none) := by
  intro domain tls ocsp net d hnul hconn
  have hout : do_handshake domain tls ocsp net
      = HsOutcome.result (handshakeSuccessResult tls ocsp d) true := by
    simp [do_handshake, hnul, hconn]
  refine ⟨handshakeSuccessResult tls ocsp d, by rw [hout]; rfl, rfl,
    fun hlen => ?_, fun hlen => ?_⟩
  · show (if 1 < d.chain.length then d.chain.get? 1 else none) = d.chain.get? 1
    rw [if_pos hlen]
  · show (if 1 < d.chain.length then d.chain.get? 1 else none) = none
    rw [if_neg (by omega)]

/-- Witness for C7 at two concrete handshakes: a chain of length 2 yields
the second chain certificate as issuer, a chain of length 1 yields none. -/
theorem c7_issuer_cert_der_witness :
    (∃ r, (do_handshake "example.org" true true
        (TlsNet.mk (Except.ok (ConnData.mk [0] [[0], [2]] none none)))).resultOrNone
      = some r ∧ r.err = "" ∧
      (1 < (([[0], [2]] : List Bytes)).length → r.issuer_cert_der = ([[0], [2]] : List Bytes).get? 1) ∧
      ((([[0], [2]] : List Bytes)).length = 1 → r.issuer_cert_der = none)) ∧
    (∃ r, (do_handshake "example.org" true true
        (TlsNet.mk (Except.ok (ConnData.mk [0] [[0]] none none)))).resultOrNone
      = some r ∧ r.err = "" ∧
      (1 < (([[0]] : List Bytes)).length → r.issuer_cert_der = ([[0]] : List Bytes).get? 1) ∧
      ((([[0]] : List Bytes)).length = 1 → r.issuer_cert_der = none)) :=
  ⟨c7_issuer_cert_der "example.org" true true
      (TlsNet.mk (Except.ok (ConnData.mk [0] [[0], [2]] none none)))
      (ConnData.mk [0] [[0], [2]] none none) (by decide) rfl,
   c7_issuer_cert_der "example.org" true true
      (TlsNet.mk (Except.ok (ConnData.mk [0] [[0]] none none)))
      (ConnData.mk [0] [[0]] none none) (by decide) rfl⟩

/-- C9 counterexample: for a domain containing a NUL byte,
`sock.set_tlsext_host_name` raises before the `try` block is entered, so
`do_handshake` propagates the exception with the socket left unclosed — an
exit path of `do_handshake` on which the created socket is not closed. -/
theorem c9_socket_close_counterexample :
    do_handshake "a\x00b" true true
        (TlsNet.mk (Except.ok (ConnData.mk [0] [[0]] none none)))
      = HsOutcome.raised PyError.typeError false := by
  decide

/-- C9 (amended): on every exit path that enters the `try` block — the
domain contains no NUL byte, so the pre-try calls return — the socket is
closed, whether the handshake succeeds or an exception is raised inside the
`try`: the `finally` clause runs either way. -/
theorem c9_socket_close_amended :
    ∀ (domain : String) (tls ocsp : Bool) (net : TlsNet),
      hasNulByte domain = false →
      (do_handshake domain tls ocsp net).sockClosed = true := by
  intro domain tls ocsp net h
  cases hc : net.conn with
  | error msg => simp [do_handshake, h, hc, HsOutcome.sockClosed]
  | ok d => simp [do_handshake, h, hc, HsOutcome.sockClosed]

/-- Witness for the amended C9 at a concrete failing and a concrete
succeeding handshake. -/
theorem c9_socket_close_amended_witness :
    (do_handshake "example.org" true true
        (TlsNet.mk (Except.error "connect timeout"))).sockClosed = true ∧
    (do_handshake "example.org" true true
        (TlsNet.mk (Except.ok (ConnData.mk [0] [[0]] none none)))).sockClosed = true :=
  ⟨c9_socket_close_amended "example.org" true true
      (TlsNet.mk (Except.error "connect timeout")) (by decide),
   c9_socket_close_amended "example.org" true true
      (TlsNet.mk (Except.ok (ConnData.mk [0] [[0]] none none))) (by decide)⟩

/-- C10: the driver passes capture flags derived from the selected tasks —
under `--cert-only` both flags are false; an unset flag means the
corresponding callback is never registered on the context; and every result
of a handshake performed with both flags false carries `None` in both
capture fields, so the TLS and OCSP SCT lists are empty. -/
theorem c10_capture_flags :
    scrapeFlags [Task.byCert] = (false, false) ∧
    (∀ tls ocsp : Bool,
      (create_context tls ocsp).ext18CallbackRegistered = tls ∧
      (create_context tls ocsp).ocspCallbackRegistered = ocsp) ∧
    (∀ (hostname : String) (net : TlsNet) (r : TlsHandshakeResult) (b : Bool),
      scrapeHandshake hostname [Task.byCert] net = HsOutcome.result r b →
      r.tls_ext_18_tdf = none ∧ r.ocsp_resp_der = none ∧
      scts_from_tls_ext_18 r.tls_ext_18_tdf = some [] ∧
      scts_from_ocsp_resp none = Except.ok []) := by
  refine ⟨rfl, fun tls ocsp => ⟨rfl, rfl⟩, fun hostname net r b h => ?_⟩
  have hflag : scrapeFlags [Task.byCert] = (false, false) := rfl
  simp only [scrapeHandshake, hflag] at h
  cases hb : hasNulByte hostname with
  | true => simp [do_handshake, hb] at h
  | false =>
    cases hc : net.conn with
    | error msg =>
      simp [do_handshake, hb, hc] at h
      rcases h with ⟨h1, h2⟩
      subst h1
      exact ⟨rfl, rfl, rfl, rfl⟩
    | ok d =>
      simp [do_handshake, hb, hc] at h
      rcases h with ⟨h1, h2⟩
      subst h1
      exact ⟨rfl, rfl, rfl, rfl⟩

/-- Witness for C10 at a concrete host whose handshake completes with both
capture flags off. -/
theorem c10_capture_flags_witness :
    (handshakeSuccessResult false false (ConnData.mk [0] [[0]] (some [9]) (some [9]))).tls_ext_18_tdf
        = none ∧
      (handshakeSuccessResult false false
          (ConnData.mk [0] [[0]] (some [9]) (some [9]))).ocsp_resp_der = none ∧
      scts_from_tls_ext_18
          (handshakeSuccessResult false false
            (ConnData.mk [0] [[0]] (some [9]) (some [9]))).tls_ext_18_tdf = some [] ∧
      scts_from_ocsp_resp none = Except.ok [] :=
  c10_capture_flags.2.2 "example.org"
    (TlsNet.mk (Except.ok (ConnData.mk [0] [[0]] (some [9]) (some [9]))))
    (handshakeSuccessResult false false (ConnData.mk [0] [[0]] (some [9]) (some [9]))) true
    (by decide)

/-- C8: the CLI cannot terminate normally with exit code 0 and an unreadable
domain file does not produce a deliberate exit code 1: argparse stores the
`--domain-file` option as `args.domain_file`, while `main` reads
`args.df` (verify_scts.py line 274), so every invocation that parses its
arguments dies with an uncaught `AttributeError` — exit status 1 — whether
the domain file is readable or not, and argparse misuse exits with status
2. -/
theorem c8_cli_exit_code_bug :
    ArgsNamespace.getattr
        (ArgsNamespace.mk 0 defaultTasks none "hosts.txt") "df"
      = Except.error PyError.attributeError ∧
    ArgsNamespace.getattr
        (ArgsNamespace.mk 0 defaultTasks none "hosts.txt") "domain_file"
      = Except.ok (AttrValue.str "hosts.txt") ∧
    cli_exit_code (Except.ok (ArgsNamespace.mk 0 defaultTasks none "hosts.txt"))
        (fun _ => true) = 1 ∧
    cli_exit_code (Except.ok (ArgsNamespace.mk 0 defaultTasks none "hosts.txt"))
        (fun _ => false) = 1 ∧
    cli_exit_code (Except.error ()) (fun _ => true) = 2 :=
  ⟨rfl, rfl, rfl, rfl, rfl⟩

end Ctzzy
